import Mathlib

/-!
Verification of the service worker in `Sw.js` (offline-resource cache
manager for a calculator PWA).  The JavaScript handlers are shallowly
embedded as pure Lean functions: the cache is an association list from
request keys (URLs) to response snapshots, the network is passed in as an
`Option Response` (`none` = the fetch promise rejected), and each handler
returns an explicit outcome record describing the response delivered, the
side effects performed (fetch issued, cache writes, skipWaiting, client
claiming) and the resulting store state.  A thrown JavaScript exception is
modelled as `Except.error`.
-/

namespace Sw

/-- `CACHE_NAME` constant of Sw.js (line 2). -/
def CACHE_NAME : String := "calculator-offline-v2"

/-- `CACHE_VERSION` constant of Sw.js (line 3). -/
def CACHE_VERSION : String := "2.0.0"

/-- `OFFLINE_URL` constant of Sw.js (line 4). -/
def OFFLINE_URL : String := "offline.html"

/-- `CORE_ASSETS` list of Sw.js (lines 7-15). -/
def CORE_ASSETS : List String :=
  ["./", "./index.html", "./manifest.json", "./icon.png",
   "./icon-192.png", "./icon-512.png", "./font-awesome.css"]

/-- A response snapshot: status, statusText, the response `type`
(`"basic"`, `"cors"`, `"default"`, ...) and the body. -/
structure Response where
  status : Nat
  statusText : String
  rtype : String
  body : String
deriving Repr, DecidableEq

/-- `new Response(body)` — defaults: status 200, empty statusText, type
`"default"`. -/
def mkResponse (body : String) : Response :=
  { status := 200, statusText := "", rtype := "default", body := body }

/-- `new Response('Offline content not available', {status:408,
statusText:'Offline'})` (Sw.js lines 122-125). -/
def response408 : Response :=
  { status := 408, statusText := "Offline", rtype := "default",
    body := "Offline content not available" }

/-- The literal offline message of Sw.js line 114. -/
def offlineLiteral : Response :=
  mkResponse "You are offline. Calculator works offline!"

/-- An intercepted request: method, URL, the value of the `accept` header
(`none` when the header is absent, in which case `headers.get('accept')`
returns `null`), and the `destination` hint. -/
structure Request where
  method : String
  url : String
  accept : Option String
  destination : String
deriving Repr, DecidableEq

/-- Boolean prefix test on character lists. -/
def listIsPref : List Char → List Char → Bool
  | [], _ => true
  | _ :: _, [] => false
  | a :: as, b :: bs => a == b && listIsPref as bs

/-- JavaScript `String.prototype.startsWith`. -/
def strStartsWith (s p : String) : Bool :=
  listIsPref p.toList s.toList

/-- JavaScript `String.prototype.includes`: `p` occurs as a contiguous
substring of `s`. -/
def strIncludes (s p : String) : Bool :=
  (List.range (s.toList.length + 1)).any fun i =>
    listIsPref p.toList (s.toList.drop i)

/-- The query-string part of a URL is everything from the first `?` on;
`stripQuery` removes it (used by `caches.match(..., {ignoreSearch:true})`). -/
def stripQuery (u : String) : String :=
  String.mk (u.toList.takeWhile fun c => c ≠ '?')

/-- The cache store: an association list from request keys (URLs) to
stored response snapshots. -/
abbrev Cache : Type := List (String × Response)

/-- `caches.match(key)` with default options: exact-key lookup. -/
def cacheMatch (c : Cache) (k : String) : Option Response :=
  ((c : List (String × Response)).find? fun e => e.1 == k).map fun e => e.2

/-- `caches.match(key, {ignoreSearch:true})`: lookup ignoring
query-string differences on both the request key and the stored keys. -/
def cacheMatchIgnoreSearch (c : Cache) (k : String) : Option Response :=
  ((c : List (String × Response)).find? fun e =>
    stripQuery e.1 == stripQuery k).map fun e => e.2

/-- `cache.put(key, response)`: stores the response under the key,
replacing any previous entry for that key. -/
def cachePut (c : Cache) (k : String) (v : Response) : Cache :=
  (k, v) :: (c : List (String × Response)).filter fun e => e.1 != k

deriving instance DecidableEq for Except

/-- Outcome of `cacheFirstStrategy`: the value the returned promise
settles with (`Except.error` = the promise rejected, i.e. an exception was
thrown; `Option` because `caches.match` can resolve with `undefined`),
whether a network fetch was issued, and the store after the handler's
cache write (the fire-and-forget `cache.put` of line 102). -/
structure CFOutcome where
  result : Except Unit (Option Response)
  fetched : Bool
  cacheAfter : Cache
deriving DecidableEq

/-- Shallow embedding of `cacheFirstStrategy` (Sw.js lines 79-128).
`net` is the outcome of `fetch(event.request)`: `some resp` when the fetch
promise resolves with `resp`, `none` when it rejects (network error). -/
def cacheFirstStrategy (cache : Cache) (req : Request) (net : Option Response) :
    CFOutcome :=
  match cacheMatchIgnoreSearch cache req.url with
  | some cachedResponse =>
    -- line 83: return cached response if found; no fetch issued
    { result := .ok (some cachedResponse), fetched := false, cacheAfter := cache }
  | none =>
    match net with
    | some response =>
      -- line 92: don't cache if not status 200 or not type 'basic'
      if response.status = 200 ∧ response.rtype = "basic" then
        { result := .ok (some response), fetched := true,
          cacheAfter := cachePut cache req.url response }
      else
        { result := .ok (some response), fetched := true, cacheAfter := cache }
    | none =>
      -- lines 108-126: network failed, fallback ladder
      match req.accept with
      | none =>
        -- line 112: headers.get('accept') is null; null.includes throws
        { result := .error (), fetched := true, cacheAfter := cache }
      | some acc =>
        if strIncludes acc "text/html" then
          match cacheMatch cache OFFLINE_URL with
          | some offlineResponse =>
            { result := .ok (some offlineResponse), fetched := true,
              cacheAfter := cache }
          | none =>
            { result := .ok (some offlineLiteral), fetched := true,
              cacheAfter := cache }
        else if req.destination = "image" then
          { result := .ok (cacheMatch cache "./icon.png"), fetched := true,
            cacheAfter := cache }
        else
          { result := .ok (some response408), fetched := true,
            cacheAfter := cache }

/-- Outcome of `networkThenCache`: the value the promise settles with
(`none` when `caches.match` resolved with `undefined` on the fallback
path) and the store after the fire-and-forget write of line 137. -/
structure NCOutcome where
  result : Option Response
  cacheAfter : Cache
deriving DecidableEq

/-- Shallow embedding of `networkThenCache` (Sw.js lines 131-145).  On
fetch success the response is cached unconditionally; on fetch failure the
store is consulted by exact key (no `ignoreSearch`). -/
def networkThenCache (cache : Cache) (req : Request) (net : Option Response) :
    NCOutcome :=
  match net with
  | some response =>
    { result := some response, cacheAfter := cachePut cache req.url response }
  | none =>
    { result := cacheMatch cache req.url, cacheAfter := cache }

/-- What the fetch listener does with an intercepted request. -/
inductive Dispatch where
  | passThrough
  | networkFirst
  | cacheFirst
deriving Repr, DecidableEq

/-- Shallow embedding of the fetch listener (Sw.js lines 60-76): a pure
classification of (method, URL). -/
def fetchListener (method url : String) : Dispatch :=
  if method ≠ "GET" then .passThrough
  else if strStartsWith url "chrome-extension://" then .passThrough
  else if strIncludes url "/api/" then .networkFirst
  else .cacheFirst

/-- Outcome of the install listener: whether the promise handed to
`event.waitUntil` rejected (this is how an install failure is surfaced to
the runtime), whether `self.skipWaiting()` was called, and the store
afterwards. -/
structure InstallOutcome where
  promiseRejected : Bool
  skipWaitingCalled : Bool
  cacheAfter : Cache
deriving DecidableEq

/-- Effect of `cache.addAll(CORE_ASSETS)` on the store when every asset
fetch succeeds: each asset is stored under its own key. -/
def addAllCache (cache : Cache) (fetchAsset : String → Option Response) : Cache :=
  CORE_ASSETS.foldl
    (fun c a =>
      match fetchAsset a with
      | some r => cachePut c a r
      | none => c)
    cache

/-- Shallow embedding of the install listener (Sw.js lines 18-35).
`fetchAsset` gives the network outcome per core asset (`none` = that
asset's fetch fails, which makes `cache.addAll` reject).  On `addAll`
rejection the `.then(skipWaiting)` step is skipped and the trailing
`.catch` logs the error and resolves, so the promise given to
`event.waitUntil` never rejects.  (`addAll`'s partial writes on failure
are left unspecified by the platform; the model keeps the store unchanged
in that case — no claim depends on it.) -/
def installHandler (cache : Cache) (fetchAsset : String → Option Response) :
    InstallOutcome :=
  if CORE_ASSETS.all (fun a => (fetchAsset a).isSome) then
    { promiseRejected := false, skipWaitingCalled := true,
      cacheAfter := addAllCache cache fetchAsset }
  else
    { promiseRejected := false, skipWaitingCalled := false, cacheAfter := cache }

/-- One observable action of the activate listener. -/
inductive ActEvent where
  | deleteStore (name : String)
  | claimClients
deriving Repr, DecidableEq

/-- Shallow embedding of the activate listener (Sw.js lines 38-57) as the
ordered sequence of actions it performs on a given set of existing store
names: `caches.delete` for every name other than `CACHE_NAME`, then —
after `Promise.all` of the deletions settles — `self.clients.claim()`. -/
def activateTrace (names : List String) : List ActEvent :=
  ((names.filter fun n => n != CACHE_NAME).map ActEvent.deleteStore)
    ++ [ActEvent.claimClients]

/-- The store names that remain once the activate listener's deletions
have run: exactly those the listener did not delete. -/
def storesAfterActivate (names : List String) : List String :=
  names.filter fun n => n == CACHE_NAME

/-- Outcome of `syncCalculations` on the pending-calculation queue read
from storage: the queue afterwards and how many storage writes
(`localStorage.setItem`) were performed. -/
structure SyncOutcome where
  pendingAfter : List String
  writes : Nat
deriving Repr, DecidableEq

/-- Shallow embedding of `syncCalculations` (Sw.js lines 157-172).
`pending` is the parsed `pendingCalculations` list (the `|| '[]'` default
makes it `[]` when the key is absent).  Empty queue: resolve with no
write.  Non-empty queue: one `setItem` resetting the storage to `'[]'`. -/
def syncCalculations (pending : List String) : SyncOutcome :=
  if pending.length = 0 then
    { pendingAfter := pending, writes := 0 }
  else
    { pendingAfter := [], writes := 1 }

/-- Shallow embedding of the sync listener (Sw.js lines 148-154): only
the tag `sync-calculations` triggers `syncCalculations`; any other tag
does nothing. -/
def syncHandler (tag : String) (pending : List String) : SyncOutcome :=
  if tag = "sync-calculations" then syncCalculations pending
  else { pendingAfter := pending, writes := 0 }

/-- The `GET_CACHE_INFO` reply posted on `event.ports[0]`. -/
structure CacheInfo where
  cacheSize : Nat
  cacheName : String
  version : String
deriving Repr, DecidableEq

/-- `cache.keys()`: the list of request keys of the store. -/
def cacheKeys (c : Cache) : List String :=
  (c : List (String × Response)).map fun e => e.1

/-- Outcome of the message listener: the reply posted on the provided
port (if any) and whether `self.skipWaiting()` was called. -/
structure MessageOutcome where
  reply : Option CacheInfo
  skipWaitingCalled : Bool
deriving Repr, DecidableEq

/-- Shallow embedding of the message listener (Sw.js lines 237-253). -/
def messageHandler (cache : Cache) (msgType : String) : MessageOutcome :=
  { reply :=
      if msgType = "GET_CACHE_INFO" then
        some { cacheSize := (cacheKeys cache).length, cacheName := CACHE_NAME,
               version := CACHE_VERSION }
      else none,
    skipWaitingCalled := msgType == "SKIP_WAITING" }

/-! ## Helper lemmas -/

/-- An entry just written with `cachePut` is found by exact-key lookup. -/
lemma cacheMatch_cachePut (c : Cache) (k : String) (v : Response) :
    cacheMatch (cachePut c k v) k = some v := by
  simp [cacheMatch, cachePut]

/-- A `Nodup` list containing `a` filters down to exactly `[a]` under
boolean equality with `a`. -/
lemma filter_beq_singleton {α : Type} [DecidableEq α] (l : List α) (a : α)
    (hmem : a ∈ l) (hnd : l.Nodup) : (l.filter fun x => x == a) = [a] := by
  induction l with
  | nil => cases hmem
  | cons b l ih =>
    rw [List.nodup_cons] at hnd
    by_cases hba : b = a
    · subst hba
      rw [List.filter_cons_of_pos (by simp)]
      have hnil : (l.filter fun x => x == b) = [] := by
        rw [List.filter_eq_nil_iff]
        intro x hx hbeq
        exact hnd.1 (by rwa [eq_of_beq hbeq] at hx)
      rw [hnil]
    · rw [List.filter_cons_of_neg (by simp [hba])]
      rcases List.mem_cons.mp hmem with rfl | hal
      · exact absurd rfl hba
      · exact ih hal hnd.2

/-! ## Claims -/

/-- C2: for every static request whose key is present in the store
(query-string differences ignored), `cacheFirstStrategy` returns the
stored entry, issues no network fetch, and leaves the store unchanged —
whatever the network would have answered. -/
theorem c2_cache_hit (cache : Cache) (req : Request) (net : Option Response)
    (r : Response) (h : cacheMatchIgnoreSearch cache req.url = some r) :
    cacheFirstStrategy cache req net =
      { result := .ok (some r), fetched := false, cacheAfter := cache } := by
  simp [cacheFirstStrategy, h]

/-- C2 witness: a request for `a.html?x=1` hits the entry stored under
`a.html` and is answered from the cache with no fetch. -/
theorem c2_cache_hit_witness :
    cacheFirstStrategy [("a.html", mkResponse "A")]
        { method := "GET", url := "a.html?x=1", accept := some "text/html",
          destination := "document" } none =
      { result := .ok (some (mkResponse "A")), fetched := false,
        cacheAfter := [("a.html", mkResponse "A")] } :=
  c2_cache_hit _ _ _ _ (by decide)

/-- C3: for every static request absent from the store, on network
success: a status-200 `basic` response is returned unmodified and stored
under the request key; any other response is returned unmodified but not
stored. -/
theorem c3_miss_network (cache : Cache) (req : Request) (resp : Response)
    (hmiss : cacheMatchIgnoreSearch cache req.url = none) :
    (resp.status = 200 ∧ resp.rtype = "basic" →
      cacheFirstStrategy cache req (some resp) =
        { result := .ok (some resp), fetched := true,
          cacheAfter := cachePut cache req.url resp } ∧
      cacheMatch (cachePut cache req.url resp) req.url = some resp) ∧
    (¬(resp.status = 200 ∧ resp.rtype = "basic") →
      cacheFirstStrategy cache req (some resp) =
        { result := .ok (some resp), fetched := true, cacheAfter := cache }) := by
  constructor
  · intro hc
    refine ⟨?_, cacheMatch_cachePut _ _ _⟩
    simp [cacheFirstStrategy, hmiss, hc.1, hc.2]
  · intro hc
    simp only [cacheFirstStrategy, hmiss]
    rw [if_neg hc]

/-- C3 witness: a cacheable response for `app.js` is returned and ends up
in the store under `app.js`. -/
theorem c3_miss_network_witness :
    cacheFirstStrategy []
        { method := "GET", url := "app.js", accept := some "*/*",
          destination := "script" }
        (some { status := 200, statusText := "OK", rtype := "basic",
                body := "JS" }) =
      { result := .ok (some { status := 200, statusText := "OK",
                              rtype := "basic", body := "JS" }),
        fetched := true,
        cacheAfter := cachePut [] "app.js"
          { status := 200, statusText := "OK", rtype := "basic",
            body := "JS" } } ∧
    cacheMatch (cachePut [] "app.js"
        { status := 200, statusText := "OK", rtype := "basic", body := "JS" })
        "app.js" =
      some { status := 200, statusText := "OK", rtype := "basic",
             body := "JS" } :=
  (c3_miss_network _ _ _ (by decide)).1 (by decide)

/-- C10: for every static request with no accept header that misses the
cache and fails on the network, the fallback dereferences `null` and the
strategy's promise rejects (`headers.get('accept')` is `null` and
`null.includes` throws) instead of producing any ladder response. -/
theorem c10_accept_null_throws (cache : Cache) (req : Request)
    (hmiss : cacheMatchIgnoreSearch cache req.url = none)
    (hacc : req.accept = none) :
    (cacheFirstStrategy cache req none).result = .error () := by
  simp [cacheFirstStrategy, hmiss, hacc]

/-- C10 witness: a header-less request for `style.css` with an empty
cache and a failed network makes the strategy throw. -/
theorem c10_accept_null_throws_witness :
    (cacheFirstStrategy []
        { method := "GET", url := "style.css", accept := none,
          destination := "style" } none).result = Except.error () :=
  c10_accept_null_throws [] _ (by decide) rfl

/-- C1 counterexample: a GET image request with NO accept header that
misses the cache and fails on the network does not receive the cached
placeholder image entry (as the claim's ladder prescribes for an image
request) — the strategy throws instead. -/
theorem c1_counterexample :
    (cacheFirstStrategy [("./icon.png", mkResponse "icon-bytes")]
        { method := "GET", url := "pic.png", accept := none,
          destination := "image" } none).result = .error () ∧
    (cacheFirstStrategy [("./icon.png", mkResponse "icon-bytes")]
        { method := "GET", url := "pic.png", accept := none,
          destination := "image" } none).result ≠
      .ok (cacheMatch [("./icon.png", mkResponse "icon-bytes")] "./icon.png") := by
  exact ⟨by decide, by decide⟩

/-- C1 (amended): for every GET static request that carries an accept
header, misses the cache and fails on the network, the fallback is
selected in priority order — accept header indicating HTML: the cached
offline page entry, or the literal offline message if absent; otherwise
an image destination: the cached placeholder image lookup; otherwise the
synthesized status-408 response. -/
theorem c1_fallback_ladder (cache : Cache) (req : Request) (acc : String)
    (hmiss : cacheMatchIgnoreSearch cache req.url = none)
    (hacc : req.accept = some acc) :
    (strIncludes acc "text/html" = true →
      (cacheFirstStrategy cache req none).result =
        .ok (some ((cacheMatch cache OFFLINE_URL).getD offlineLiteral))) ∧
    (strIncludes acc "text/html" = false → req.destination = "image" →
      (cacheFirstStrategy cache req none).result =
        .ok (cacheMatch cache "./icon.png")) ∧
    (strIncludes acc "text/html" = false → req.destination ≠ "image" →
      (cacheFirstStrategy cache req none).result = .ok (some response408)) := by
  refine ⟨?_, ?_, ?_⟩
  · intro hh
    simp only [cacheFirstStrategy, hmiss, hacc, hh, if_true]
    cases hoff : cacheMatch cache OFFLINE_URL <;> simp [hoff]
  · intro hh hdest
    simp [cacheFirstStrategy, hmiss, hacc, hh, hdest]
  · intro hh hdest
    simp [cacheFirstStrategy, hmiss, hacc, hh, hdest]

/-- C1 witness: an HTML-accepting request, empty cache, failed network:
the literal offline message is served. -/
theorem c1_fallback_ladder_witness :
    (cacheFirstStrategy []
        { method := "GET", url := "page.html", accept := some "text/html",
          destination := "document" } none).result =
      .ok (some ((cacheMatch [] OFFLINE_URL).getD offlineLiteral)) :=
  (c1_fallback_ladder [] _ "text/html" (by decide) rfl).1 (by decide)

/-- C4 counterexample: with every core-asset fetch failing, the promise
handed to `event.waitUntil` still resolves — the trailing `.catch` only
logs, so the failure is NOT surfaced to the runtime as the claim states
(promotion is indeed not requested, see the amended theorem). -/
theorem c4_counterexample :
    ((fun _ : String => (none : Option Response)) "./index.html").isNone = true ∧
    (installHandler [] fun _ => none).promiseRejected = false := by
  exact ⟨rfl, rfl⟩

/-- C4 (amended): if any core asset fails to fetch or store during
install, the error is caught and only logged — the promise given to
`waitUntil` resolves, so the failure is not surfaced to the runtime — and
promotion past the waiting state (`skipWaiting`) is not requested. -/
theorem c4_install_error_swallowed (cache : Cache)
    (fetchAsset : String → Option Response)
    (hfail : CORE_ASSETS.all (fun a => (fetchAsset a).isSome) = false) :
    (installHandler cache fetchAsset).promiseRejected = false ∧
    (installHandler cache fetchAsset).skipWaitingCalled = false := by
  simp [installHandler, hfail]

/-- C4 witness: with every asset fetch failing the install promise
resolves and `skipWaiting` is not called. -/
theorem c4_install_error_swallowed_witness :
    (installHandler [("old", mkResponse "O")] fun _ => none).promiseRejected
        = false ∧
    (installHandler [("old", mkResponse "O")] fun _ => none).skipWaitingCalled
        = false :=
  c4_install_error_swallowed _ (fun _ => none) (by decide)

/-- C5: for every duplicate-free set of store names containing the
current version tag, activation deletes exactly the names differing from
the tag (each such name is deleted, and nothing else is), leaving exactly
one store, and `clients.claim` happens strictly after all deletions. -/
theorem c5_activate (names : List String) (hmem : CACHE_NAME ∈ names)
    (hnd : names.Nodup) :
    storesAfterActivate names = [CACHE_NAME] ∧
    (∀ n ∈ names, n ≠ CACHE_NAME →
      ActEvent.deleteStore n ∈ activateTrace names) ∧
    (∀ n : String, ActEvent.deleteStore n ∈ activateTrace names →
      n ∈ names ∧ n ≠ CACHE_NAME) ∧
    (activateTrace names).getLast? = some ActEvent.claimClients ∧
    (∀ e ∈ (activateTrace names).dropLast, e ≠ ActEvent.claimClients) := by
  refine ⟨filter_beq_singleton _ _ hmem hnd, ?_, ?_, ?_, ?_⟩
  · intro n hn hne
    apply List.mem_append_left
    exact List.mem_map.mpr ⟨n, List.mem_filter.mpr ⟨hn, by simp [hne]⟩, rfl⟩
  · intro n hn
    rcases List.mem_append.mp hn with h | h
    · rcases List.mem_map.mp h with ⟨m, hm, hinj⟩
      cases hinj
      have hf := List.mem_filter.mp hm
      exact ⟨hf.1, by simpa using hf.2⟩
    · simp at h
  · exact List.getLast?_concat _
  · rw [activateTrace, List.dropLast_concat]
    intro e he
    rcases List.mem_map.mp he with ⟨m, _, rfl⟩
    simp

/-- C5 witness: starting from the current store plus two stale
generations, exactly the current store survives activation. -/
theorem c5_activate_witness :
    storesAfterActivate ["calculator-offline-v1", CACHE_NAME, "stale"] =
      [CACHE_NAME] :=
  (c5_activate _ (by decide) (by decide)).1

/-- C6: the fetch listener is a deterministic classification of
(method, URL), applied in order: non-GET ignored; browser-extension
scheme ignored; URL containing the reserved API segment dispatched to
Network-First; everything else dispatched to Cache-First. -/
theorem c6_router (method url : String) :
    (method ≠ "GET" → fetchListener method url = .passThrough) ∧
    (strStartsWith url "chrome-extension://" = true →
      fetchListener method url = .passThrough) ∧
    (method = "GET" → strStartsWith url "chrome-extension://" = false →
      strIncludes url "/api/" = true →
      fetchListener method url = .networkFirst) ∧
    (method = "GET" → strStartsWith url "chrome-extension://" = false →
      strIncludes url "/api/" = false →
      fetchListener method url = .cacheFirst) := by
  refine ⟨?_, ?_, ?_, ?_⟩
  · intro h
    simp [fetchListener, h]
  · intro h
    by_cases hm : method = "GET"
    · simp [fetchListener, hm, h]
    · simp [fetchListener, hm]
  · intro hm hext hapi
    simp [fetchListener, hm, hext, hapi]
  · intro hm hext hapi
    simp [fetchListener, hm, hext, hapi]

/-- C6 witness: a POST request is passed through untouched. -/
theorem c6_router_witness :
    fetchListener "POST" "index.html" = Dispatch.passThrough :=
  (c6_router "POST" "index.html").1 (by decide)

/-- C7: in Network-First, on network failure the store is consulted by
exact key (query strings NOT ignored) and the store is not written; when
no entry exists the caller receives no response object at all. -/
theorem c7_network_first_failure (cache : Cache) (req : Request) :
    (networkThenCache cache req none).result = cacheMatch cache req.url ∧
    (networkThenCache cache req none).cacheAfter = cache ∧
    (cacheMatch cache req.url = none →
      (networkThenCache cache req none).result = none) := by
  refine ⟨rfl, rfl, ?_⟩
  intro h
  simp [networkThenCache, h]

/-- C7 witness: the store holds `/api/data` but the failing request's key
is `/api/data?x=1`; the exact-key lookup misses and the caller gets no
response (a query-ignoring lookup would have matched). -/
theorem c7_network_first_failure_witness :
    (networkThenCache [("/api/data", mkResponse "D")]
        { method := "GET", url := "/api/data?x=1",
          accept := some "application/json", destination := "" }
        none).result = none :=
  (c7_network_first_failure _ _).2.2 (by decide)

/-- C8: with the recognized tag, flushing an empty queue succeeds with no
storage write; flushing a non-empty queue of any size resets storage to
the empty list in a single write; any other tag is ignored silently. -/
theorem c8_sync (pending : List String) (tag : String) :
    syncHandler "sync-calculations" [] =
      { pendingAfter := [], writes := 0 } ∧
    (1 ≤ pending.length →
      syncHandler "sync-calculations" pending =
        { pendingAfter := [], writes := 1 }) ∧
    (tag ≠ "sync-calculations" →
      syncHandler tag pending = { pendingAfter := pending, writes := 0 }) := by
  refine ⟨rfl, ?_, ?_⟩
  · intro h
    have hne : pending.length ≠ 0 := by omega
    simp [syncHandler, syncCalculations, hne]
  · intro h
    simp [syncHandler, h]

/-- C8 witness: a one-element queue is flushed to empty with exactly one
storage write, and an unrecognized tag leaves the queue untouched. -/
theorem c8_sync_witness :
    syncHandler "sync-calculations" ["1+1"] =
      { pendingAfter := [], writes := 1 } ∧
    syncHandler "sync-files" ["1+1"] =
      { pendingAfter := ["1+1"], writes := 0 } :=
  ⟨(c8_sync ["1+1"] "sync-files").2.1 (by decide),
   (c8_sync ["1+1"] "sync-files").2.2 (by decide)⟩

/-- C9: for every store, a `GET_CACHE_INFO` message produces a reply
whose `cacheSize` is the exact number of keys of the store, together with
the current store name and version string. -/
theorem c9_cache_info (cache : Cache) :
    (messageHandler cache "GET_CACHE_INFO").reply =
      some { cacheSize := (cacheKeys cache).length, cacheName := CACHE_NAME,
             version := CACHE_VERSION } := rfl

end Sw
